import Mathlib

/-!
Verification development for the CEFR speaking-evaluation pipeline
(`app/scoring_agent/tools.py`, `app/scoring_agent/agent.py`, `app/tools.py`).

The pydantic data model is embedded shallowly: structured payloads are a
JSON-like inductive, each pydantic model becomes a Lean structure, and
pydantic validation becomes an error-accumulating validator that returns
either the typed value or the list of offending field paths (pydantic v2
collects every error, not just the first).  The agent-side functions
`judge_speaking`, `log_scores` and `get_scores` are embedded as explicit
state-passing functions over a collaborator record, a request log and a
session-memory association list.
-/

/-- JSON-like structured values, as produced by the generation collaborator
and consumed by pydantic validation. -/
inductive Json where
  | null : Json
  | str : String → Json
  | num : Int → Json
  | bool : Bool → Json
  | arr : List Json → Json
  | obj : List (String × Json) → Json

/-- First-match lookup in an association list, mirroring dict access. -/
def lookupField : List (String × Json) → String → Option Json
  | [], _ => none
  | (k', v) :: rest, k => if k' = k then some v else lookupField rest k

/-- Field access on a JSON object; `none` on non-objects and absent keys. -/
def Json.getField : Json → String → Option Json
  | .obj fields, k => lookupField fields k
  | _, _ => none

def Json.isObj : Json → Bool
  | .obj _ => true
  | _ => false

/-- The CEFR proficiency enum of `tools.py` (`class CEFRLevel(str, Enum)`). -/
inductive CEFRLevel where
  | A1 | A2 | B1 | B2 | C1 | C2
deriving Repr, DecidableEq

/-- The string value carried by each `CEFRLevel` enum member. -/
def CEFRLevel.toStr : CEFRLevel → String
  | .A1 => "A1"
  | .A2 => "A2"
  | .B1 => "B1"
  | .B2 => "B2"
  | .C1 => "C1"
  | .C2 => "C2"

/-- Enum validation: only the exact member strings are accepted
("B2.5" is not a member, so it fails). -/
def parseCEFR (s : String) : Option CEFRLevel :=
  if s = "A1" then some .A1
  else if s = "A2" then some .A2
  else if s = "B1" then some .B1
  else if s = "B2" then some .B2
  else if s = "C1" then some .C1
  else if s = "C2" then some .C2
  else none

/-- `class Evidence(BaseModel)`: excerpt plus optional note. -/
structure Evidence where
  excerpt : String
  note : Option String
deriving Repr, DecidableEq

/-- `class Subscore(BaseModel)`: `score: conint(ge=0, le=5)`,
`cefr_estimate: CEFRLevel`, `rationale: str`,
`evidence: List[Evidence]` (default `[]`), `suggestions: Optional[str]`. -/
structure Subscore where
  score : Int
  cefr_estimate : CEFRLevel
  rationale : String
  evidence : List Evidence
  suggestions : Option String
deriving Repr, DecidableEq

/-- `class VocabJudge(BaseModel)`. -/
structure VocabJudge where
  vocab_range : Subscore
  vocab_control : Subscore
  overall_cefr : CEFRLevel
  overall_comment : String
deriving Repr, DecidableEq

/-- `class GrammarJudge(BaseModel)`: note the field `range_` declared with
`alias="range"` — validation reads key `"range"`, dumping writes `"range_"`. -/
structure GrammarJudge where
  range_ : Subscore
  accuracy : Subscore
  overall_cefr : CEFRLevel
  overall_comment : String
deriving Repr, DecidableEq

/-- `class FluencyJudge(BaseModel)`. -/
structure FluencyJudge where
  fluency : Subscore
  overall_cefr : CEFRLevel
  overall_comment : String
deriving Repr, DecidableEq

/-- `class CoherenceJudge(BaseModel)`. -/
structure CoherenceJudge where
  organization : Subscore
  cohesion_devices : Subscore
  overall_cefr : CEFRLevel
  overall_comment : String
deriving Repr, DecidableEq

/-- `class InteractionJudge(BaseModel)`. -/
structure InteractionJudge where
  turntaking : Subscore
  cooperation_strategies : Subscore
  managing_breakdowns : Subscore
  overall_cefr : CEFRLevel
  overall_comment : String
deriving Repr, DecidableEq

/-- `class PronunciationJudge(BaseModel)`. -/
structure PronunciationJudge where
  overall_phonological_control : Subscore
  sound_articulation : Subscore
  prosody : Subscore
  overall_cefr : CEFRLevel
  overall_comment : String
deriving Repr, DecidableEq

/-- `class TaskAchievementJudge(BaseModel)`. -/
structure TaskAchievementJudge where
  relevance_and_coverage : Subscore
  functional_adequacy : Subscore
  overall_cefr : CEFRLevel
  overall_comment : String
deriving Repr, DecidableEq

/-- `class SpeakingEvaluation(BaseModel)`: the aggregate root. -/
structure SpeakingEvaluation where
  target_level : Option CEFRLevel
  vocab : VocabJudge
  grammar : GrammarJudge
  fluency : FluencyJudge
  coherence : CoherenceJudge
  interaction : InteractionJudge
  pronunciation : PronunciationJudge
  task : Option TaskAchievementJudge
  overall_level : CEFRLevel
  overall_summary : String
  global_recommendations : Option String
deriving Repr, DecidableEq

/-- A validation error report: the list of offending field paths
(pydantic's `loc` tuples). -/
abbrev Errs := List (List String)

/-- Error-accumulating pairing of two validation results, mirroring how
pydantic validates every field and reports the union of errors. -/
def collect2 {α β : Type} : Except Errs α → Except Errs β → Except Errs (α × β)
  | .ok a, .ok b => .ok (a, b)
  | .error e, .ok _ => .error e
  | .ok _, .error e => .error e
  | .error e, .error e' => .error (e ++ e')

/-- Required `str` field: present and a string (pydantic does not require
non-emptiness for a bare `str` annotation). -/
def vStr (p : List String) (o : Option Json) : Except Errs String :=
  match o with
  | some (.str s) => .ok s
  | _ => .error [p]

/-- `Optional[str]` field with default `None`: absent or null is `None`. -/
def vOptStr (p : List String) (o : Option Json) : Except Errs (Option String) :=
  match o with
  | none => .ok none
  | some .null => .ok none
  | some (.str s) => .ok (some s)
  | some _ => .error [p]

/-- `conint(ge=0, le=5)`: an integer in [0,5]; out-of-range fails, it is
never clamped. -/
def vScore (p : List String) (o : Option Json) : Except Errs Int :=
  match o with
  | some (.num n) => if 0 ≤ n ∧ n ≤ 5 then .ok n else .error [p]
  | _ => .error [p]

/-- Required `CEFRLevel` field. -/
def vCEFR (p : List String) (o : Option Json) : Except Errs CEFRLevel :=
  match o with
  | some (.str s) =>
    match parseCEFR s with
    | some c => .ok c
    | none => .error [p]
  | _ => .error [p]

/-- `Optional[CEFRLevel]` field with default `None`. -/
def vOptCEFR (p : List String) (o : Option Json) : Except Errs (Option CEFRLevel) :=
  match o with
  | none => .ok none
  | some .null => .ok none
  | some (.str s) =>
    match parseCEFR s with
    | some c => .ok (some c)
    | none => .error [p]
  | some _ => .error [p]

/-- Required nested-model field: absent is an error, otherwise validate. -/
def vReq {α : Type} (f : List String → Json → Except Errs α) (p : List String)
    (o : Option Json) : Except Errs α :=
  match o with
  | none => .error [p]
  | some j => f p j

/-- Validation of one `Evidence` payload. -/
def validateEvidence (p : List String) (j : Json) : Except Errs Evidence :=
  if j.isObj then
    (collect2 (vStr (p ++ ["excerpt"]) (j.getField "excerpt"))
              (vOptStr (p ++ ["note"]) (j.getField "note"))).map
      (fun (ex, no) => { excerpt := ex, note := no })
  else .error [p]

/-- Element-wise validation of an evidence array, with index locations. -/
def validateEvidList (p : List String) : Nat → List Json → Except Errs (List Evidence)
  | _, [] => .ok []
  | i, x :: xs =>
    (collect2 (validateEvidence (p ++ [toString i]) x)
              (validateEvidList p (i + 1) xs)).map
      (fun (e, es) => e :: es)

/-- `List[Evidence]` with `default_factory=list`: absent means `[]`. -/
def vEvidenceList (p : List String) (o : Option Json) : Except Errs (List Evidence) :=
  match o with
  | none => .ok []
  | some (.arr xs) => validateEvidList p 0 xs
  | some _ => .error [p]

/-- Validation of one `Subscore` payload. -/
def validateSubscore (p : List String) (j : Json) : Except Errs Subscore :=
  if j.isObj then
    (collect2 (vScore (p ++ ["score"]) (j.getField "score"))
    (collect2 (vCEFR (p ++ ["cefr_estimate"]) (j.getField "cefr_estimate"))
    (collect2 (vStr (p ++ ["rationale"]) (j.getField "rationale"))
    (collect2 (vEvidenceList (p ++ ["evidence"]) (j.getField "evidence"))
              (vOptStr (p ++ ["suggestions"]) (j.getField "suggestions")))))).map
      (fun (sc, ce, ra, ev, su) =>
        { score := sc, cefr_estimate := ce, rationale := ra, evidence := ev,
          suggestions := su })
  else .error [p]

/-- Validation of a `VocabJudge` payload. -/
def validateVocab (p : List String) (j : Json) : Except Errs VocabJudge :=
  if j.isObj then
    (collect2 (vReq validateSubscore (p ++ ["vocab_range"]) (j.getField "vocab_range"))
    (collect2 (vReq validateSubscore (p ++ ["vocab_control"]) (j.getField "vocab_control"))
    (collect2 (vCEFR (p ++ ["overall_cefr"]) (j.getField "overall_cefr"))
              (vStr (p ++ ["overall_comment"]) (j.getField "overall_comment"))))).map
      (fun (vr, vc, oc, ocm) =>
        { vocab_range := vr, vocab_control := vc, overall_cefr := oc,
          overall_comment := ocm })
  else .error [p]

/-- Validation of a `GrammarJudge` payload: the `range_` field is populated
from the INPUT KEY `"range"` (its declared alias). -/
def validateGrammar (p : List String) (j : Json) : Except Errs GrammarJudge :=
  if j.isObj then
    (collect2 (vReq validateSubscore (p ++ ["range"]) (j.getField "range"))
    (collect2 (vReq validateSubscore (p ++ ["accuracy"]) (j.getField "accuracy"))
    (collect2 (vCEFR (p ++ ["overall_cefr"]) (j.getField "overall_cefr"))
              (vStr (p ++ ["overall_comment"]) (j.getField "overall_comment"))))).map
      (fun (rg, ac, oc, ocm) =>
        { range_ := rg, accuracy := ac, overall_cefr := oc, overall_comment := ocm })
  else .error [p]

/-- Validation of a `FluencyJudge` payload. -/
def validateFluency (p : List String) (j : Json) : Except Errs FluencyJudge :=
  if j.isObj then
    (collect2 (vReq validateSubscore (p ++ ["fluency"]) (j.getField "fluency"))
    (collect2 (vCEFR (p ++ ["overall_cefr"]) (j.getField "overall_cefr"))
              (vStr (p ++ ["overall_comment"]) (j.getField "overall_comment")))).map
      (fun (fl, oc, ocm) =>
        { fluency := fl, overall_cefr := oc, overall_comment := ocm })
  else .error [p]

/-- Validation of a `CoherenceJudge` payload. -/
def validateCoherence (p : List String) (j : Json) : Except Errs CoherenceJudge :=
  if j.isObj then
    (collect2 (vReq validateSubscore (p ++ ["organization"]) (j.getField "organization"))
    (collect2 (vReq validateSubscore (p ++ ["cohesion_devices"]) (j.getField "cohesion_devices"))
    (collect2 (vCEFR (p ++ ["overall_cefr"]) (j.getField "overall_cefr"))
              (vStr (p ++ ["overall_comment"]) (j.getField "overall_comment"))))).map
      (fun (og, cd, oc, ocm) =>
        { organization := og, cohesion_devices := cd, overall_cefr := oc,
          overall_comment := ocm })
  else .error [p]

/-- Validation of an `InteractionJudge` payload. -/
def validateInteraction (p : List String) (j : Json) : Except Errs InteractionJudge :=
  if j.isObj then
    (collect2 (vReq validateSubscore (p ++ ["turntaking"]) (j.getField "turntaking"))
    (collect2 (vReq validateSubscore (p ++ ["cooperation_strategies"])
                (j.getField "cooperation_strategies"))
    (collect2 (vReq validateSubscore (p ++ ["managing_breakdowns"])
                (j.getField "managing_breakdowns"))
    (collect2 (vCEFR (p ++ ["overall_cefr"]) (j.getField "overall_cefr"))
              (vStr (p ++ ["overall_comment"]) (j.getField "overall_comment")))))).map
      (fun (tt, cs, mb, oc, ocm) =>
        { turntaking := tt, cooperation_strategies := cs, managing_breakdowns := mb,
          overall_cefr := oc, overall_comment := ocm })
  else .error [p]

/-- Validation of a `PronunciationJudge` payload. -/
def validatePronunciation (p : List String) (j : Json) : Except Errs PronunciationJudge :=
  if j.isObj then
    (collect2 (vReq validateSubscore (p ++ ["overall_phonological_control"])
                (j.getField "overall_phonological_control"))
    (collect2 (vReq validateSubscore (p ++ ["sound_articulation"])
                (j.getField "sound_articulation"))
    (collect2 (vReq validateSubscore (p ++ ["prosody"]) (j.getField "prosody"))
    (collect2 (vCEFR (p ++ ["overall_cefr"]) (j.getField "overall_cefr"))
              (vStr (p ++ ["overall_comment"]) (j.getField "overall_comment")))))).map
      (fun (op, sa, pr, oc, ocm) =>
        { overall_phonological_control := op, sound_articulation := sa, prosody := pr,
          overall_cefr := oc, overall_comment := ocm })
  else .error [p]

/-- Validation of a `TaskAchievementJudge` payload. -/
def validateTask (p : List String) (j : Json) : Except Errs TaskAchievementJudge :=
  if j.isObj then
    (collect2 (vReq validateSubscore (p ++ ["relevance_and_coverage"])
                (j.getField "relevance_and_coverage"))
    (collect2 (vReq validateSubscore (p ++ ["functional_adequacy"])
                (j.getField "functional_adequacy"))
    (collect2 (vCEFR (p ++ ["overall_cefr"]) (j.getField "overall_cefr"))
              (vStr (p ++ ["overall_comment"]) (j.getField "overall_comment"))))).map
      (fun (rc, fa, oc, ocm) =>
        { relevance_and_coverage := rc, functional_adequacy := fa, overall_cefr := oc,
          overall_comment := ocm })
  else .error [p]

/-- `Optional[TaskAchievementJudge]` with default `None`. -/
def vOptTask (p : List String) (o : Option Json) : Except Errs (Option TaskAchievementJudge) :=
  match o with
  | none => .ok none
  | some .null => .ok none
  | some j => (validateTask p j).map some

/-- `SpeakingEvaluation.model_validate`: the schema's validation operation.
Succeeds only when every field validates; on failure the error lists every
offending field path. -/
def validateSpeakingEvaluation (p : List String) (j : Json) :
    Except Errs SpeakingEvaluation :=
  if j.isObj then
    (collect2 (vOptCEFR (p ++ ["target_level"]) (j.getField "target_level"))
    (collect2 (vReq validateVocab (p ++ ["vocab"]) (j.getField "vocab"))
    (collect2 (vReq validateGrammar (p ++ ["grammar"]) (j.getField "grammar"))
    (collect2 (vReq validateFluency (p ++ ["fluency"]) (j.getField "fluency"))
    (collect2 (vReq validateCoherence (p ++ ["coherence"]) (j.getField "coherence"))
    (collect2 (vReq validateInteraction (p ++ ["interaction"]) (j.getField "interaction"))
    (collect2 (vReq validatePronunciation (p ++ ["pronunciation"])
                (j.getField "pronunciation"))
    (collect2 (vOptTask (p ++ ["task"]) (j.getField "task"))
    (collect2 (vCEFR (p ++ ["overall_level"]) (j.getField "overall_level"))
    (collect2 (vStr (p ++ ["overall_summary"]) (j.getField "overall_summary"))
              (vOptStr (p ++ ["global_recommendations"])
                (j.getField "global_recommendations")))))))))))).map
      (fun (tl, vo, gr, fl, co, it, pr, ta, ol, os, grc) =>
        { target_level := tl, vocab := vo, grammar := gr, fluency := fl,
          coherence := co, interaction := it, pronunciation := pr, task := ta,
          overall_level := ol, overall_summary := os, global_recommendations := grc })
  else .error [p]

/-! ## `model_dump`: serialization back to structured data

Pydantic v2 `model_dump()` uses the FIELD NAMES by default (`by_alias`
defaults to `False`), so `GrammarJudge.range_` is dumped under the key
`"range_"`, not its validation alias `"range"`.  `None` values are included
as nulls; enum members dump to their string values. -/

def dumpOptStr : Option String → Json
  | none => .null
  | some s => .str s

def dumpEvidence (e : Evidence) : Json :=
  .obj [("excerpt", .str e.excerpt), ("note", dumpOptStr e.note)]

def dumpSubscore (s : Subscore) : Json :=
  .obj [("score", .num s.score),
        ("cefr_estimate", .str s.cefr_estimate.toStr),
        ("rationale", .str s.rationale),
        ("evidence", .arr (s.evidence.map dumpEvidence)),
        ("suggestions", dumpOptStr s.suggestions)]

def dumpVocab (v : VocabJudge) : Json :=
  .obj [("vocab_range", dumpSubscore v.vocab_range),
        ("vocab_control", dumpSubscore v.vocab_control),
        ("overall_cefr", .str v.overall_cefr.toStr),
        ("overall_comment", .str v.overall_comment)]

def dumpGrammar (g : GrammarJudge) : Json :=
  .obj [("range_", dumpSubscore g.range_),
        ("accuracy", dumpSubscore g.accuracy),
        ("overall_cefr", .str g.overall_cefr.toStr),
        ("overall_comment", .str g.overall_comment)]

def dumpFluency (f : FluencyJudge) : Json :=
  .obj [("fluency", dumpSubscore f.fluency),
        ("overall_cefr", .str f.overall_cefr.toStr),
        ("overall_comment", .str f.overall_comment)]

def dumpCoherence (c : CoherenceJudge) : Json :=
  .obj [("organization", dumpSubscore c.organization),
        ("cohesion_devices", dumpSubscore c.cohesion_devices),
        ("overall_cefr", .str c.overall_cefr.toStr),
        ("overall_comment", .str c.overall_comment)]

def dumpInteraction (i : InteractionJudge) : Json :=
  .obj [("turntaking", dumpSubscore i.turntaking),
        ("cooperation_strategies", dumpSubscore i.cooperation_strategies),
        ("managing_breakdowns", dumpSubscore i.managing_breakdowns),
        ("overall_cefr", .str i.overall_cefr.toStr),
        ("overall_comment", .str i.overall_comment)]

def dumpPronunciation (p : PronunciationJudge) : Json :=
  .obj [("overall_phonological_control", dumpSubscore p.overall_phonological_control),
        ("sound_articulation", dumpSubscore p.sound_articulation),
        ("prosody", dumpSubscore p.prosody),
        ("overall_cefr", .str p.overall_cefr.toStr),
        ("overall_comment", .str p.overall_comment)]

def dumpTask (t : TaskAchievementJudge) : Json :=
  .obj [("relevance_and_coverage", dumpSubscore t.relevance_and_coverage),
        ("functional_adequacy", dumpSubscore t.functional_adequacy),
        ("overall_cefr", .str t.overall_cefr.toStr),
        ("overall_comment", .str t.overall_comment)]

def dumpOptCEFR : Option CEFRLevel → Json
  | none => .null
  | some c => .str c.toStr

def dumpOptTask : Option TaskAchievementJudge → Json
  | none => .null
  | some t => dumpTask t

/-- `SpeakingEvaluation.model_dump()`: the dict returned by `judge_speaking`. -/
def dumpSpeakingEvaluation (e : SpeakingEvaluation) : Json :=
  .obj [("target_level", dumpOptCEFR e.target_level),
        ("vocab", dumpVocab e.vocab),
        ("grammar", dumpGrammar e.grammar),
        ("fluency", dumpFluency e.fluency),
        ("coherence", dumpCoherence e.coherence),
        ("interaction", dumpInteraction e.interaction),
        ("pronunciation", dumpPronunciation e.pronunciation),
        ("task", dumpOptTask e.task),
        ("overall_level", .str e.overall_level.toStr),
        ("overall_summary", .str e.overall_summary),
        ("global_recommendations", dumpOptStr e.global_recommendations)]

/-! ## The evaluator (`app/scoring_agent/agent.py`, `judge_speaking`)

The generation collaborator (`client.models.generate_content`) is an
external service; it is embedded as a record mapping request contents to a
response carrying an optional pre-structured payload (`resp.parsed`) and a
raw text payload (`resp.text`).  The agent run is embedded by explicit
state passing: the state records the session memory and the log of
outbound requests, so frame properties ("issues exactly one request",
"does not write the store") are statable. -/

/-- The collaborator's response: `resp.parsed` (structured path, `None` when
unavailable) and `resp.text` (raw textual payload). -/
structure GenResponse where
  parsed : Option SpeakingEvaluation
  text : String

/-- The external generation collaborator: contents in, response out. -/
structure Collaborator where
  respond : String → GenResponse

/-- Session memory: a dict-like association list (`tool_context.memory`). -/
abbrev Mem := List (String × Json)

/-- Observable agent state: the session memory plus the log of outbound
requests issued to the generation collaborator. -/
structure AgentState where
  memory : Mem
  requests : List String

/-- `client.models.generate_content(...)`: issues one outbound request
(appended to the request log) and returns the collaborator's response. -/
def generate_content (client : Collaborator) (contents : String) (st : AgentState) :
    GenResponse × AgentState :=
  (client.respond contents, { st with requests := st.requests ++ [contents] })

/-- `SpeakingEvaluation.model_validate_json(text)`: parse the raw text as
JSON (the JSON decoder is external library code, embedded as a parameter),
then validate against the schema. -/
def model_validate_json (jsonParse : String → Option Json) (s : String) :
    Except Errs SpeakingEvaluation :=
  match jsonParse s with
  | none => .error [["json_invalid"]]
  | some j => validateSpeakingEvaluation [] j

/-- `judge_speaking(user_input)`: issue one generation request; take
`resp.parsed` if truthy, else fall back to
`SpeakingEvaluation.model_validate_json(resp.text)`; return
`evaluation.model_dump()`.  Validation failure propagates as the error. -/
def judge_speaking (client : Collaborator) (jsonParse : String → Option Json)
    (user_input : String) (st : AgentState) : Except Errs Json × AgentState :=
  let resp_st := generate_content client user_input st
  let evaluation : Except Errs SpeakingEvaluation :=
    match resp_st.1.parsed with
    | some e => .ok e
    | none => model_validate_json jsonParse resp_st.1.text
  (evaluation.map dumpSpeakingEvaluation, resp_st.2)

/-! ## The session score store (`app/tools.py`) -/

/-- Dict assignment `m[k] = v`: replace the value at an existing key in
place, or append a new entry (Python dict insertion-order semantics). -/
def memSet : Mem → String → Json → Mem
  | [], k, v => [(k, v)]
  | (k', v') :: rest, k, v =>
    if k' = k then (k', v) :: rest else (k', v') :: memSet rest k v

/-- `log_scores(tool_context, evaluation)`: stores the evaluation under
`tool_context.memory["scores"]` and returns the confirmation string. -/
def log_scores (mem : Mem) (evaluation : Json) : Mem × String :=
  (memSet mem "scores" evaluation, "Scores logged successfully.")

/-- `get_scores(tool_context)`: returns `tool_context.memory.get("scores", {})`
— the stored evaluation, or the empty dict if none was stored.  It reads
only; the returned memory is the input memory. -/
def get_scores (mem : Mem) : Mem × Json :=
  (mem, (lookupField mem "scores").getD (.obj []))

/-! ## Derived notions used by the statements -/

/-- The error report carried by a failed validation (`[]` for successes). -/
def errOf {α : Type} : Except Errs α → Errs
  | .ok _ => []
  | .error e => e

/-- The rubric band constraint `0 ≤ score ≤ 5` on a typed subscore. -/
def Subscore.inRange (s : Subscore) : Bool :=
  decide (0 ≤ s.score ∧ s.score ≤ 5)

/-- Band bound on the optional task judgment's subscores. -/
def optTaskInRange : Option TaskAchievementJudge → Bool
  | none => true
  | some t => t.relevance_and_coverage.inRange && t.functional_adequacy.inRange

/-- Every subscore of a typed evaluation satisfies the rubric band bound. -/
def SpeakingEvaluation.scoresInRange (e : SpeakingEvaluation) : Bool :=
  e.vocab.vocab_range.inRange && e.vocab.vocab_control.inRange &&
  e.grammar.range_.inRange && e.grammar.accuracy.inRange &&
  e.fluency.fluency.inRange &&
  e.coherence.organization.inRange && e.coherence.cohesion_devices.inRange &&
  e.interaction.turntaking.inRange && e.interaction.cooperation_strategies.inRange &&
  e.interaction.managing_breakdowns.inRange &&
  e.pronunciation.overall_phonological_control.inRange &&
  e.pronunciation.sound_articulation.inRange && e.pronunciation.prosody.inRange &&
  optTaskInRange e.task

/-! ## Round-trip agreement: the typed value carries exactly the input's
field values (no alteration, no defaulting-over, no renaming of present
values). -/

/-- An optional string field agrees with its input slot. -/
def optStrAgrees (o : Option Json) : Option String → Prop := fun r =>
  match o, r with
  | none, none => True
  | some .null, none => True
  | some (.str s), some t => s = t
  | _, _ => False

/-- An optional CEFR field agrees with its input slot. -/
def optCefrAgrees (o : Option Json) : Option CEFRLevel → Prop := fun r =>
  match o, r with
  | none, none => True
  | some .null, none => True
  | some (.str s), some c => s = c.toStr
  | _, _ => False

/-- A required nested value agrees: the slot is present and agrees. -/
def reqAgrees {α : Type} (A : Json → α → Prop) (o : Option Json) (a : α) : Prop :=
  match o with
  | some j => A j a
  | none => False

/-- A typed `Evidence` carries exactly its payload's values. -/
def evidenceAgrees (j : Json) (e : Evidence) : Prop :=
  j.getField "excerpt" = some (.str e.excerpt) ∧
  optStrAgrees (j.getField "note") e.note

/-- The typed evidence list agrees element-wise with the input array
(`[]` exactly when the field was absent, per `default_factory=list`). -/
def evidListAgrees (o : Option Json) (es : List Evidence) : Prop :=
  match o with
  | none => es = []
  | some (.arr xs) => List.Forall₂ evidenceAgrees xs es
  | some _ => False

/-- A typed `Subscore` carries exactly its payload's values. -/
def subscoreAgrees (j : Json) (s : Subscore) : Prop :=
  j.getField "score" = some (.num s.score) ∧
  j.getField "cefr_estimate" = some (.str s.cefr_estimate.toStr) ∧
  j.getField "rationale" = some (.str s.rationale) ∧
  evidListAgrees (j.getField "evidence") s.evidence ∧
  optStrAgrees (j.getField "suggestions") s.suggestions

/-- A typed `VocabJudge` carries exactly its payload's values. -/
def vocabAgrees (j : Json) (v : VocabJudge) : Prop :=
  reqAgrees subscoreAgrees (j.getField "vocab_range") v.vocab_range ∧
  reqAgrees subscoreAgrees (j.getField "vocab_control") v.vocab_control ∧
  j.getField "overall_cefr" = some (.str v.overall_cefr.toStr) ∧
  j.getField "overall_comment" = some (.str v.overall_comment)

/-- A typed `GrammarJudge` carries exactly its payload's values; the
`range_` field holds the value supplied under the alias key `"range"`. -/
def grammarAgrees (j : Json) (g : GrammarJudge) : Prop :=
  reqAgrees subscoreAgrees (j.getField "range") g.range_ ∧
  reqAgrees subscoreAgrees (j.getField "accuracy") g.accuracy ∧
  j.getField "overall_cefr" = some (.str g.overall_cefr.toStr) ∧
  j.getField "overall_comment" = some (.str g.overall_comment)

/-- A typed `FluencyJudge` carries exactly its payload's values. -/
def fluencyAgrees (j : Json) (f : FluencyJudge) : Prop :=
  reqAgrees subscoreAgrees (j.getField "fluency") f.fluency ∧
  j.getField "overall_cefr" = some (.str f.overall_cefr.toStr) ∧
  j.getField "overall_comment" = some (.str f.overall_comment)

/-- A typed `CoherenceJudge` carries exactly its payload's values. -/
def coherenceAgrees (j : Json) (c : CoherenceJudge) : Prop :=
  reqAgrees subscoreAgrees (j.getField "organization") c.organization ∧
  reqAgrees subscoreAgrees (j.getField "cohesion_devices") c.cohesion_devices ∧
  j.getField "overall_cefr" = some (.str c.overall_cefr.toStr) ∧
  j.getField "overall_comment" = some (.str c.overall_comment)

/-- A typed `InteractionJudge` carries exactly its payload's values. -/
def interactionAgrees (j : Json) (i : InteractionJudge) : Prop :=
  reqAgrees subscoreAgrees (j.getField "turntaking") i.turntaking ∧
  reqAgrees subscoreAgrees (j.getField "cooperation_strategies") i.cooperation_strategies ∧
  reqAgrees subscoreAgrees (j.getField "managing_breakdowns") i.managing_breakdowns ∧
  j.getField "overall_cefr" = some (.str i.overall_cefr.toStr) ∧
  j.getField "overall_comment" = some (.str i.overall_comment)

/-- A typed `PronunciationJudge` carries exactly its payload's values. -/
def pronunciationAgrees (j : Json) (pj : PronunciationJudge) : Prop :=
  reqAgrees subscoreAgrees (j.getField "overall_phonological_control")
    pj.overall_phonological_control ∧
  reqAgrees subscoreAgrees (j.getField "sound_articulation") pj.sound_articulation ∧
  reqAgrees subscoreAgrees (j.getField "prosody") pj.prosody ∧
  j.getField "overall_cefr" = some (.str pj.overall_cefr.toStr) ∧
  j.getField "overall_comment" = some (.str pj.overall_comment)

/-- A typed `TaskAchievementJudge` carries exactly its payload's values. -/
def taskAgrees (j : Json) (t : TaskAchievementJudge) : Prop :=
  reqAgrees subscoreAgrees (j.getField "relevance_and_coverage") t.relevance_and_coverage ∧
  reqAgrees subscoreAgrees (j.getField "functional_adequacy") t.functional_adequacy ∧
  j.getField "overall_cefr" = some (.str t.overall_cefr.toStr) ∧
  j.getField "overall_comment" = some (.str t.overall_comment)

/-- The optional task judgment agrees with its input slot. -/
def optTaskAgrees (o : Option Json) : Option TaskAchievementJudge → Prop := fun r =>
  match o, r with
  | none, none => True
  | some .null, none => True
  | some j, some t => taskAgrees j t
  | _, _ => False

/-- A typed `SpeakingEvaluation` carries exactly its payload's values. -/
def evalAgrees (j : Json) (e : SpeakingEvaluation) : Prop :=
  optCefrAgrees (j.getField "target_level") e.target_level ∧
  reqAgrees vocabAgrees (j.getField "vocab") e.vocab ∧
  reqAgrees grammarAgrees (j.getField "grammar") e.grammar ∧
  reqAgrees fluencyAgrees (j.getField "fluency") e.fluency ∧
  reqAgrees coherenceAgrees (j.getField "coherence") e.coherence ∧
  reqAgrees interactionAgrees (j.getField "interaction") e.interaction ∧
  reqAgrees pronunciationAgrees (j.getField "pronunciation") e.pronunciation ∧
  optTaskAgrees (j.getField "task") e.task ∧
  j.getField "overall_level" = some (.str e.overall_level.toStr) ∧
  j.getField "overall_summary" = some (.str e.overall_summary) ∧
  optStrAgrees (j.getField "global_recommendations") e.global_recommendations

/-! ## Concrete fixtures used by witnesses and counterexamples -/

/-- A well-formed subscore payload (score 3, level B1, one evidence item). -/
def subPayload : Json :=
  .obj [("score", .num 3),
        ("cefr_estimate", .str "B1"),
        ("rationale", .str "tense errors but clear message"),
        ("evidence", .arr [.obj [("excerpt", .str "I go to the market"),
                                 ("note", .str "past tense needed")]]),
        ("suggestions", .null)]

/-- The typed value `subPayload` validates to. -/
def subVal : Subscore :=
  { score := 3, cefr_estimate := .B1,
    rationale := "tense errors but clear message",
    evidence := [{ excerpt := "I go to the market", note := some "past tense needed" }],
    suggestions := none }

/-- A subscore payload whose `score` is 6 and whose `cefr_estimate` is the
non-member string "B2.5": both fields are invalid. -/
def badSubPayload : Json :=
  .obj [("score", .num 6),
        ("cefr_estimate", .str "B2.5"),
        ("rationale", .str "r"),
        ("evidence", .arr []),
        ("suggestions", .null)]

def vocabPayload : Json :=
  .obj [("vocab_range", subPayload), ("vocab_control", subPayload),
        ("overall_cefr", .str "B1"), ("overall_comment", .str "adequate range")]

def vocabVal : VocabJudge :=
  { vocab_range := subVal, vocab_control := subVal, overall_cefr := .B1,
    overall_comment := "adequate range" }

def grammarPayload : Json :=
  .obj [("range", subPayload), ("accuracy", subPayload),
        ("overall_cefr", .str "B1"), ("overall_comment", .str "basic structures")]

def grammarVal : GrammarJudge :=
  { range_ := subVal, accuracy := subVal, overall_cefr := .B1,
    overall_comment := "basic structures" }

def fluencyPayload : Json :=
  .obj [("fluency", subPayload),
        ("overall_cefr", .str "B1"), ("overall_comment", .str "keeps going")]

def fluencyVal : FluencyJudge :=
  { fluency := subVal, overall_cefr := .B1, overall_comment := "keeps going" }

def coherencePayload : Json :=
  .obj [("organization", subPayload), ("cohesion_devices", subPayload),
        ("overall_cefr", .str "B1"), ("overall_comment", .str "linear narrative")]

def coherenceVal : CoherenceJudge :=
  { organization := subVal, cohesion_devices := subVal, overall_cefr := .B1,
    overall_comment := "linear narrative" }

def interactionPayload : Json :=
  .obj [("turntaking", subPayload), ("cooperation_strategies", subPayload),
        ("managing_breakdowns", subPayload),
        ("overall_cefr", .str "B1"), ("overall_comment", .str "responds simply")]

def interactionVal : InteractionJudge :=
  { turntaking := subVal, cooperation_strategies := subVal,
    managing_breakdowns := subVal, overall_cefr := .B1,
    overall_comment := "responds simply" }

def pronunciationPayload : Json :=
  .obj [("overall_phonological_control", subPayload),
        ("sound_articulation", subPayload), ("prosody", subPayload),
        ("overall_cefr", .str "B1"), ("overall_comment", .str "intelligible")]

def pronunciationVal : PronunciationJudge :=
  { overall_phonological_control := subVal, sound_articulation := subVal,
    prosody := subVal, overall_cefr := .B1, overall_comment := "intelligible" }

/-- A full evaluation payload, parametric in the `overall_summary` string. -/
def mkEvalPayload (summary : String) : Json :=
  .obj [("target_level", .null),
        ("vocab", vocabPayload),
        ("grammar", grammarPayload),
        ("fluency", fluencyPayload),
        ("coherence", coherencePayload),
        ("interaction", interactionPayload),
        ("pronunciation", pronunciationPayload),
        ("task", .null),
        ("overall_level", .str "B1"),
        ("overall_summary", .str summary),
        ("global_recommendations", .null)]

/-- The typed evaluation `mkEvalPayload summary` validates to. -/
def mkEvalVal (summary : String) : SpeakingEvaluation :=
  { target_level := none, vocab := vocabVal, grammar := grammarVal,
    fluency := fluencyVal, coherence := coherenceVal,
    interaction := interactionVal, pronunciation := pronunciationVal,
    task := none, overall_level := .B1, overall_summary := summary,
    global_recommendations := none }

/-- A subscore payload whose `score` is the out-of-range integer 6. -/
def badVocabRangeSub : Json :=
  .obj [("score", .num 6),
        ("cefr_estimate", .str "B1"),
        ("rationale", .str "r"),
        ("evidence", .arr []),
        ("suggestions", .null)]

/-- A vocabulary judge payload whose `vocab_range` subscore is invalid. -/
def badVocabPayload : Json :=
  .obj [("vocab_range", badVocabRangeSub),
        ("vocab_control", subPayload),
        ("overall_cefr", .str "B1"),
        ("overall_comment", .str "adequate range")]

/-- A payload identical to `mkEvalPayload` except that the vocabulary
range subscore's `score` is the out-of-range integer 6. -/
def outOfRangePayload : Json :=
  .obj [("target_level", .null),
        ("vocab", badVocabPayload),
        ("grammar", grammarPayload),
        ("fluency", fluencyPayload),
        ("coherence", coherencePayload),
        ("interaction", interactionPayload),
        ("pronunciation", pronunciationPayload),
        ("task", .null),
        ("overall_level", .str "B1"),
        ("overall_summary", .str "s"),
        ("global_recommendations", .null)]

/-- A collaborator that always answers with no structured payload and an
unusable text body. -/
def clientNone : Collaborator := ⟨fun _ => ⟨none, "not json"⟩⟩

/-- A collaborator that always answers with a pre-structured payload. -/
def clientParsed : Collaborator := ⟨fun _ => ⟨some (mkEvalVal "solid B1"), "ignored"⟩⟩

/-- A JSON decoder stub that fails on every input (malformed text). -/
def parseNone : String → Option Json := fun _ => none

/-- A JSON decoder stub that decodes every input to the sample payload. -/
def parseSample : String → Option Json := fun _ => some (mkEvalPayload "solid B1")

/-- A fresh agent state: empty session memory, no outbound requests yet. -/
def st0 : AgentState := ⟨[], []⟩

/-! ## Basic lemmas about the validation combinators -/

theorem except_map_ok {α β : Type} {f : α → β} {x : Except Errs α} {y : β}
    (h : x.map f = .ok y) : ∃ a, x = .ok a ∧ f a = y := by
  cases x with
  | ok a => exact ⟨a, rfl, by simpa [Except.map] using h⟩
  | error e => simp [Except.map] at h

theorem errOf_map {α β : Type} (f : α → β) (x : Except Errs α) :
    errOf (x.map f) = errOf x := by
  cases x <;> rfl

theorem getField_some_isObj {j : Json} {k : String} {v : Json}
    (h : j.getField k = some v) : j.isObj = true := by
  cases j <;> first
  | rfl
  | simp [Json.getField] at h

theorem collect2_ok {α β : Type} {a : Except Errs α} {b : Except Errs β} {x : α} {y : β}
    (h : collect2 a b = .ok (x, y)) : a = .ok x ∧ b = .ok y := by
  cases a with
  | error e => cases b <;> simp [collect2] at h
  | ok av =>
    cases b with
    | error e => simp [collect2] at h
    | ok bv =>
      simp only [collect2, Except.ok.injEq, Prod.mk.injEq] at h
      exact ⟨by rw [h.1], by rw [h.2]⟩

theorem mem_errOf_collect2_left {α β : Type} {l : List String}
    {a : Except Errs α} {b : Except Errs β}
    (h : l ∈ errOf a) : l ∈ errOf (collect2 a b) := by
  cases a with
  | ok av => simp [errOf] at h
  | error e => cases b <;> simp_all [collect2, errOf]

theorem mem_errOf_collect2_right {α β : Type} {l : List String}
    {a : Except Errs α} {b : Except Errs β}
    (h : l ∈ errOf b) : l ∈ errOf (collect2 a b) := by
  cases b with
  | ok bv => simp [errOf] at h
  | error e => cases a <;> simp_all [collect2, errOf]

theorem mem_errOf_is_error {α : Type} {l : List String} {x : Except Errs α}
    (h : l ∈ errOf x) : x = .error (errOf x) := by
  cases x with
  | ok a => simp [errOf] at h
  | error e => rfl

/-! ## Lemmas about the leaf field validators -/

theorem vStr_ok {p : List String} {o : Option Json} {s : String}
    (h : vStr p o = .ok s) : o = some (.str s) := by
  cases o with
  | none => simp [vStr] at h
  | some j => cases j <;> simp_all [vStr]

theorem vOptStr_ok {p : List String} {o : Option Json} {r : Option String}
    (h : vOptStr p o = .ok r) : optStrAgrees o r := by
  cases o with
  | none => simp [vOptStr] at h; simp [optStrAgrees, ← h]
  | some j => cases j <;> simp_all [vOptStr, optStrAgrees] <;> simp [← h, optStrAgrees]

theorem vScore_ok {p : List String} {o : Option Json} {n : Int}
    (h : vScore p o = .ok n) : o = some (.num n) ∧ 0 ≤ n ∧ n ≤ 5 := by
  cases o with
  | none => simp [vScore] at h
  | some j =>
    cases j with
    | num m =>
      simp only [vScore] at h
      split at h
      · rename_i hc
        cases h
        exact ⟨rfl, hc⟩
      · cases h
    | null => simp [vScore] at h
    | str s => simp [vScore] at h
    | bool b => simp [vScore] at h
    | arr xs => simp [vScore] at h
    | obj fs => simp [vScore] at h

theorem parseCEFR_toStr {s : String} {c : CEFRLevel} (h : parseCEFR s = some c) :
    c.toStr = s := by
  unfold parseCEFR at h
  split_ifs at h <;> simp_all [CEFRLevel.toStr] <;> simp [← h, CEFRLevel.toStr]

theorem vCEFR_ok {p : List String} {o : Option Json} {c : CEFRLevel}
    (h : vCEFR p o = .ok c) : o = some (.str c.toStr) := by
  cases o with
  | none => simp [vCEFR] at h
  | some j =>
    cases j with
    | str s =>
      simp only [vCEFR] at h
      cases hp : parseCEFR s with
      | none => rw [hp] at h; cases h
      | some c' =>
        rw [hp] at h
        cases h
        rw [parseCEFR_toStr hp]
    | null => simp [vCEFR] at h
    | num n => simp [vCEFR] at h
    | bool b => simp [vCEFR] at h
    | arr xs => simp [vCEFR] at h
    | obj fs => simp [vCEFR] at h

theorem vOptCEFR_ok {p : List String} {o : Option Json} {r : Option CEFRLevel}
    (h : vOptCEFR p o = .ok r) : optCefrAgrees o r := by
  cases o with
  | none => simp [vOptCEFR] at h; simp [optCefrAgrees, ← h]
  | some j =>
    cases j with
    | str s =>
      simp only [vOptCEFR] at h
      cases hp : parseCEFR s with
      | none => rw [hp] at h; cases h
      | some c' =>
        rw [hp] at h
        cases h
        simp [optCefrAgrees, parseCEFR_toStr hp]
    | null => simp [vOptCEFR] at h; simp [optCefrAgrees, ← h]
    | num n => simp [vOptCEFR] at h
    | bool b => simp [vOptCEFR] at h
    | arr xs => simp [vOptCEFR] at h
    | obj fs => simp [vOptCEFR] at h

theorem vReq_ok {α : Type} {f : List String → Json → Except Errs α}
    {p : List String} {o : Option Json} {a : α}
    (h : vReq f p o = .ok a) : ∃ j, o = some j ∧ f p j = .ok a := by
  cases o with
  | none => simp [vReq] at h
  | some j => exact ⟨j, rfl, h⟩

/-! ## Decomposition of successful validation, level by level -/

theorem validateEvidence_ok {p : List String} {j : Json} {e : Evidence}
    (h : validateEvidence p j = .ok e) : evidenceAgrees j e := by
  unfold validateEvidence at h
  split at h
  · obtain ⟨t, hc, hf⟩ := except_map_ok h
    obtain ⟨ex, no⟩ := t
    obtain ⟨h1, h2⟩ := collect2_ok hc
    cases hf
    exact ⟨vStr_ok h1, vOptStr_ok h2⟩
  · cases h

theorem validateEvidList_ok {p : List String} :
    ∀ {i : Nat} {xs : List Json} {es : List Evidence},
      validateEvidList p i xs = .ok es → List.Forall₂ evidenceAgrees xs es := by
  intro i xs
  induction xs generalizing i with
  | nil =>
    intro es h
    simp only [validateEvidList] at h
    cases h
    exact .nil
  | cons x xs ih =>
    intro es h
    simp only [validateEvidList] at h
    obtain ⟨t, hc, hf⟩ := except_map_ok h
    obtain ⟨e, es'⟩ := t
    obtain ⟨h1, h2⟩ := collect2_ok hc
    cases hf
    exact .cons (validateEvidence_ok h1) (ih h2)

theorem vEvidenceList_ok {p : List String} {o : Option Json} {es : List Evidence}
    (h : vEvidenceList p o = .ok es) : evidListAgrees o es := by
  cases o with
  | none =>
    simp only [vEvidenceList] at h
    cases h
    rfl
  | some j =>
    cases j with
    | arr xs =>
      simp only [vEvidenceList] at h
      exact validateEvidList_ok h
    | null => simp [vEvidenceList] at h
    | str s => simp [vEvidenceList] at h
    | num n => simp [vEvidenceList] at h
    | bool b => simp [vEvidenceList] at h
    | obj fs => simp [vEvidenceList] at h

theorem validateSubscore_ok {p : List String} {j : Json} {s : Subscore}
    (h : validateSubscore p j = .ok s) :
    subscoreAgrees j s ∧ 0 ≤ s.score ∧ s.score ≤ 5 := by
  unfold validateSubscore at h
  split at h
  · obtain ⟨t, hc, hf⟩ := except_map_ok h
    obtain ⟨sc, ce, ra, ev, su⟩ := t
    obtain ⟨h1, hrest⟩ := collect2_ok hc
    obtain ⟨h2, hrest⟩ := collect2_ok hrest
    obtain ⟨h3, hrest⟩ := collect2_ok hrest
    obtain ⟨h4, h5⟩ := collect2_ok hrest
    cases hf
    obtain ⟨hsc, hge, hle⟩ := vScore_ok h1
    exact ⟨⟨hsc, vCEFR_ok h2, vStr_ok h3, vEvidenceList_ok h4, vOptStr_ok h5⟩, hge, hle⟩
  · cases h

theorem validateSubscore_inRange {p : List String} {j : Json} {s : Subscore}
    (h : validateSubscore p j = .ok s) : s.inRange = true := by
  obtain ⟨-, hge, hle⟩ := validateSubscore_ok h
  simp only [Subscore.inRange, decide_eq_true_eq]
  exact ⟨hge, hle⟩

theorem validateVocab_ok {p : List String} {j : Json} {v : VocabJudge}
    (h : validateVocab p j = .ok v) :
    vocabAgrees j v ∧ v.vocab_range.inRange = true ∧ v.vocab_control.inRange = true := by
  unfold validateVocab at h
  split at h
  · obtain ⟨t, hc, hf⟩ := except_map_ok h
    obtain ⟨vr, vc, oc, ocm⟩ := t
    obtain ⟨h1, hrest⟩ := collect2_ok hc
    obtain ⟨h2, hrest⟩ := collect2_ok hrest
    obtain ⟨h3, h4⟩ := collect2_ok hrest
    cases hf
    obtain ⟨j1, hj1, hv1⟩ := vReq_ok h1
    obtain ⟨j2, hj2, hv2⟩ := vReq_ok h2
    refine ⟨⟨?_, ?_, vCEFR_ok h3, vStr_ok h4⟩,
      validateSubscore_inRange hv1, validateSubscore_inRange hv2⟩
    · rw [hj1]; exact (validateSubscore_ok hv1).1
    · rw [hj2]; exact (validateSubscore_ok hv2).1
  · cases h

theorem validateGrammar_ok {p : List String} {j : Json} {g : GrammarJudge}
    (h : validateGrammar p j = .ok g) :
    grammarAgrees j g ∧ g.range_.inRange = true ∧ g.accuracy.inRange = true := by
  unfold validateGrammar at h
  split at h
  · obtain ⟨t, hc, hf⟩ := except_map_ok h
    obtain ⟨rg, ac, oc, ocm⟩ := t
    obtain ⟨h1, hrest⟩ := collect2_ok hc
    obtain ⟨h2, hrest⟩ := collect2_ok hrest
    obtain ⟨h3, h4⟩ := collect2_ok hrest
    cases hf
    obtain ⟨j1, hj1, hv1⟩ := vReq_ok h1
    obtain ⟨j2, hj2, hv2⟩ := vReq_ok h2
    refine ⟨⟨?_, ?_, vCEFR_ok h3, vStr_ok h4⟩,
      validateSubscore_inRange hv1, validateSubscore_inRange hv2⟩
    · rw [hj1]; exact (validateSubscore_ok hv1).1
    · rw [hj2]; exact (validateSubscore_ok hv2).1
  · cases h

theorem validateFluency_ok {p : List String} {j : Json} {f : FluencyJudge}
    (h : validateFluency p j = .ok f) :
    fluencyAgrees j f ∧ f.fluency.inRange = true := by
  unfold validateFluency at h
  split at h
  · obtain ⟨t, hc, hf⟩ := except_map_ok h
    obtain ⟨fl, oc, ocm⟩ := t
    obtain ⟨h1, hrest⟩ := collect2_ok hc
    obtain ⟨h2, h3⟩ := collect2_ok hrest
    cases hf
    obtain ⟨j1, hj1, hv1⟩ := vReq_ok h1
    refine ⟨⟨?_, vCEFR_ok h2, vStr_ok h3⟩, validateSubscore_inRange hv1⟩
    · rw [hj1]; exact (validateSubscore_ok hv1).1
  · cases h

theorem validateCoherence_ok {p : List String} {j : Json} {c : CoherenceJudge}
    (h : validateCoherence p j = .ok c) :
    coherenceAgrees j c ∧ c.organization.inRange = true ∧
      c.cohesion_devices.inRange = true := by
  unfold validateCoherence at h
  split at h
  · obtain ⟨t, hc, hf⟩ := except_map_ok h
    obtain ⟨og, cd, oc, ocm⟩ := t
    obtain ⟨h1, hrest⟩ := collect2_ok hc
    obtain ⟨h2, hrest⟩ := collect2_ok hrest
    obtain ⟨h3, h4⟩ := collect2_ok hrest
    cases hf
    obtain ⟨j1, hj1, hv1⟩ := vReq_ok h1
    obtain ⟨j2, hj2, hv2⟩ := vReq_ok h2
    refine ⟨⟨?_, ?_, vCEFR_ok h3, vStr_ok h4⟩,
      validateSubscore_inRange hv1, validateSubscore_inRange hv2⟩
    · rw [hj1]; exact (validateSubscore_ok hv1).1
    · rw [hj2]; exact (validateSubscore_ok hv2).1
  · cases h

theorem validateInteraction_ok {p : List String} {j : Json} {i : InteractionJudge}
    (h : validateInteraction p j = .ok i) :
    interactionAgrees j i ∧ i.turntaking.inRange = true ∧
      i.cooperation_strategies.inRange = true ∧
      i.managing_breakdowns.inRange = true := by
  unfold validateInteraction at h
  split at h
  · obtain ⟨t, hc, hf⟩ := except_map_ok h
    obtain ⟨tt, cs, mb, oc, ocm⟩ := t
    obtain ⟨h1, hrest⟩ := collect2_ok hc
    obtain ⟨h2, hrest⟩ := collect2_ok hrest
    obtain ⟨h3, hrest⟩ := collect2_ok hrest
    obtain ⟨h4, h5⟩ := collect2_ok hrest
    cases hf
    obtain ⟨j1, hj1, hv1⟩ := vReq_ok h1
    obtain ⟨j2, hj2, hv2⟩ := vReq_ok h2
    obtain ⟨j3, hj3, hv3⟩ := vReq_ok h3
    refine ⟨⟨?_, ?_, ?_, vCEFR_ok h4, vStr_ok h5⟩, validateSubscore_inRange hv1,
      validateSubscore_inRange hv2, validateSubscore_inRange hv3⟩
    · rw [hj1]; exact (validateSubscore_ok hv1).1
    · rw [hj2]; exact (validateSubscore_ok hv2).1
    · rw [hj3]; exact (validateSubscore_ok hv3).1
  · cases h

theorem validatePronunciation_ok {p : List String} {j : Json} {pj : PronunciationJudge}
    (h : validatePronunciation p j = .ok pj) :
    pronunciationAgrees j pj ∧ pj.overall_phonological_control.inRange = true ∧
      pj.sound_articulation.inRange = true ∧ pj.prosody.inRange = true := by
  unfold validatePronunciation at h
  split at h
  · obtain ⟨t, hc, hf⟩ := except_map_ok h
    obtain ⟨op, sa, pr, oc, ocm⟩ := t
    obtain ⟨h1, hrest⟩ := collect2_ok hc
    obtain ⟨h2, hrest⟩ := collect2_ok hrest
    obtain ⟨h3, hrest⟩ := collect2_ok hrest
    obtain ⟨h4, h5⟩ := collect2_ok hrest
    cases hf
    obtain ⟨j1, hj1, hv1⟩ := vReq_ok h1
    obtain ⟨j2, hj2, hv2⟩ := vReq_ok h2
    obtain ⟨j3, hj3, hv3⟩ := vReq_ok h3
    refine ⟨⟨?_, ?_, ?_, vCEFR_ok h4, vStr_ok h5⟩, validateSubscore_inRange hv1,
      validateSubscore_inRange hv2, validateSubscore_inRange hv3⟩
    · rw [hj1]; exact (validateSubscore_ok hv1).1
    · rw [hj2]; exact (validateSubscore_ok hv2).1
    · rw [hj3]; exact (validateSubscore_ok hv3).1
  · cases h

theorem validateTask_ok {p : List String} {j : Json} {t : TaskAchievementJudge}
    (h : validateTask p j = .ok t) :
    taskAgrees j t ∧ t.relevance_and_coverage.inRange = true ∧
      t.functional_adequacy.inRange = true := by
  unfold validateTask at h
  split at h
  · obtain ⟨u, hc, hf⟩ := except_map_ok h
    obtain ⟨rc, fa, oc, ocm⟩ := u
    obtain ⟨h1, hrest⟩ := collect2_ok hc
    obtain ⟨h2, hrest⟩ := collect2_ok hrest
    obtain ⟨h3, h4⟩ := collect2_ok hrest
    cases hf
    obtain ⟨j1, hj1, hv1⟩ := vReq_ok h1
    obtain ⟨j2, hj2, hv2⟩ := vReq_ok h2
    refine ⟨⟨?_, ?_, vCEFR_ok h3, vStr_ok h4⟩,
      validateSubscore_inRange hv1, validateSubscore_inRange hv2⟩
    · rw [hj1]; exact (validateSubscore_ok hv1).1
    · rw [hj2]; exact (validateSubscore_ok hv2).1
  · cases h

theorem vOptTask_ok {p : List String} {o : Option Json} {r : Option TaskAchievementJudge}
    (h : vOptTask p o = .ok r) : optTaskAgrees o r ∧ optTaskInRange r = true := by
  cases o with
  | none =>
    simp only [vOptTask] at h
    cases h
    exact ⟨trivial, rfl⟩
  | some j =>
    cases j
    case null =>
      simp only [vOptTask] at h
      cases h
      exact ⟨trivial, rfl⟩
    all_goals
      simp only [vOptTask] at h
      obtain ⟨t, ht, hf⟩ := except_map_ok h
      cases hf
      obtain ⟨ha, h1, h2⟩ := validateTask_ok ht
      exact ⟨ha, by simp [optTaskInRange, h1, h2]⟩

theorem validateSpeakingEvaluation_ok {p : List String} {j : Json}
    {e : SpeakingEvaluation} (h : validateSpeakingEvaluation p j = .ok e) :
    evalAgrees j e ∧ e.scoresInRange = true := by
  unfold validateSpeakingEvaluation at h
  split at h
  · obtain ⟨t, hc, hf⟩ := except_map_ok h
    obtain ⟨tl, vo, gr, fl, co, it, pr, ta, ol, os, grc⟩ := t
    obtain ⟨h1, hrest⟩ := collect2_ok hc
    obtain ⟨h2, hrest⟩ := collect2_ok hrest
    obtain ⟨h3, hrest⟩ := collect2_ok hrest
    obtain ⟨h4, hrest⟩ := collect2_ok hrest
    obtain ⟨h5, hrest⟩ := collect2_ok hrest
    obtain ⟨h6, hrest⟩ := collect2_ok hrest
    obtain ⟨h7, hrest⟩ := collect2_ok hrest
    obtain ⟨h8, hrest⟩ := collect2_ok hrest
    obtain ⟨h9, hrest⟩ := collect2_ok hrest
    obtain ⟨h10, h11⟩ := collect2_ok hrest
    cases hf
    obtain ⟨j2, hj2, hv2⟩ := vReq_ok h2
    obtain ⟨j3, hj3, hv3⟩ := vReq_ok h3
    obtain ⟨j4, hj4, hv4⟩ := vReq_ok h4
    obtain ⟨j5, hj5, hv5⟩ := vReq_ok h5
    obtain ⟨j6, hj6, hv6⟩ := vReq_ok h6
    obtain ⟨j7, hj7, hv7⟩ := vReq_ok h7
    obtain ⟨ha2, hr2a, hr2b⟩ := validateVocab_ok hv2
    obtain ⟨ha3, hr3a, hr3b⟩ := validateGrammar_ok hv3
    obtain ⟨ha4, hr4⟩ := validateFluency_ok hv4
    obtain ⟨ha5, hr5a, hr5b⟩ := validateCoherence_ok hv5
    obtain ⟨ha6, hr6a, hr6b, hr6c⟩ := validateInteraction_ok hv6
    obtain ⟨ha7, hr7a, hr7b, hr7c⟩ := validatePronunciation_ok hv7
    obtain ⟨ha8, hr8⟩ := vOptTask_ok h8
    constructor
    · refine ⟨vOptCEFR_ok h1, ?_, ?_, ?_, ?_, ?_, ?_, ha8,
        vCEFR_ok h9, vStr_ok h10, vOptStr_ok h11⟩
      · rw [hj2]; exact ha2
      · rw [hj3]; exact ha3
      · rw [hj4]; exact ha4
      · rw [hj5]; exact ha5
      · rw [hj6]; exact ha6
      · rw [hj7]; exact ha7
    · simp [SpeakingEvaluation.scoresInRange, hr2a, hr2b, hr3a, hr3b, hr4,
        hr5a, hr5b, hr6a, hr6b, hr6c, hr7a, hr7b, hr7c, hr8]
  · cases h

/-! ## Error propagation: invalid fields are reported through every level -/

theorem mem_err_subscore_score {p : List String} {j : Json} {n : Int}
    (hs : j.getField "score" = some (.num n)) (hn : ¬(0 ≤ n ∧ n ≤ 5)) :
    (p ++ ["score"]) ∈ errOf (validateSubscore p j) := by
  unfold validateSubscore
  rw [if_pos (getField_some_isObj hs), errOf_map]
  apply mem_errOf_collect2_left
  rw [hs]
  simp [vScore, errOf, hn]

theorem mem_err_subscore_cefr {p : List String} {j : Json} {s : String}
    (hc : j.getField "cefr_estimate" = some (.str s)) (hp : parseCEFR s = none) :
    (p ++ ["cefr_estimate"]) ∈ errOf (validateSubscore p j) := by
  unfold validateSubscore
  rw [if_pos (getField_some_isObj hc), errOf_map]
  apply mem_errOf_collect2_right
  apply mem_errOf_collect2_left
  rw [hc]
  simp [vCEFR, errOf, hp]

theorem mem_err_vocab_range {p : List String} {jv js : Json} {l : List String}
    (hjs : jv.getField "vocab_range" = some js)
    (hmem : l ∈ errOf (validateSubscore (p ++ ["vocab_range"]) js)) :
    l ∈ errOf (validateVocab p jv) := by
  unfold validateVocab
  rw [if_pos (getField_some_isObj hjs), errOf_map]
  apply mem_errOf_collect2_left
  rw [hjs]
  exact hmem

theorem mem_err_grammar_missing_range {p : List String} {j : Json}
    (hobj : j.isObj = true) (hnone : j.getField "range" = none) :
    (p ++ ["range"]) ∈ errOf (validateGrammar p j) := by
  unfold validateGrammar
  rw [if_pos hobj, errOf_map]
  apply mem_errOf_collect2_left
  rw [hnone]
  simp [vReq, errOf]

theorem mem_err_SE_vocab {p : List String} {j jv : Json} {l : List String}
    (hjv : j.getField "vocab" = some jv)
    (hmem : l ∈ errOf (validateVocab (p ++ ["vocab"]) jv)) :
    l ∈ errOf (validateSpeakingEvaluation p j) := by
  unfold validateSpeakingEvaluation
  rw [if_pos (getField_some_isObj hjv), errOf_map]
  apply mem_errOf_collect2_right
  apply mem_errOf_collect2_left
  rw [hjv]
  exact hmem

theorem mem_err_SE_grammar {p : List String} {j jg : Json} {l : List String}
    (hjg : j.getField "grammar" = some jg)
    (hmem : l ∈ errOf (validateGrammar (p ++ ["grammar"]) jg)) :
    l ∈ errOf (validateSpeakingEvaluation p j) := by
  unfold validateSpeakingEvaluation
  rw [if_pos (getField_some_isObj hjg), errOf_map]
  apply mem_errOf_collect2_right
  apply mem_errOf_collect2_right
  apply mem_errOf_collect2_left
  rw [hjg]
  exact hmem

theorem mem_err_SE_overall_level {p : List String} {j : Json} {s : String}
    (hol : j.getField "overall_level" = some (.str s)) (hp : parseCEFR s = none) :
    (p ++ ["overall_level"]) ∈ errOf (validateSpeakingEvaluation p j) := by
  unfold validateSpeakingEvaluation
  rw [if_pos (getField_some_isObj hol), errOf_map]
  apply mem_errOf_collect2_right
  apply mem_errOf_collect2_right
  apply mem_errOf_collect2_right
  apply mem_errOf_collect2_right
  apply mem_errOf_collect2_right
  apply mem_errOf_collect2_right
  apply mem_errOf_collect2_right
  apply mem_errOf_collect2_right
  apply mem_errOf_collect2_left
  rw [hol]
  simp [vCEFR, errOf, hp]

/-! ## Store lemmas -/

theorem lookup_memSet_same (m : Mem) (k : String) (v : Json) :
    lookupField (memSet m k v) k = some v := by
  induction m with
  | nil => simp [memSet, lookupField]
  | cons hd tl ih =>
    obtain ⟨k', v'⟩ := hd
    by_cases hk : k' = k
    · subst hk
      simp [memSet, lookupField]
    · simp [memSet, lookupField, hk, ih]

theorem memSet_memSet (m : Mem) (k : String) (v1 v2 : Json) :
    memSet (memSet m k v1) k v2 = memSet m k v2 := by
  induction m with
  | nil => simp [memSet]
  | cons hd tl ih =>
    obtain ⟨k', v'⟩ := hd
    by_cases hk : k' = k
    · subst hk
      simp [memSet]
    · simp [memSet, hk, ih]

theorem lookup_memSet_other (m : Mem) {k k' : String} (v : Json) (h : k' ≠ k) :
    lookupField (memSet m k v) k' = lookupField m k' := by
  induction m with
  | nil => simp [memSet, lookupField, Ne.symm h]
  | cons hd tl ih =>
    obtain ⟨ka, va⟩ := hd
    by_cases hk : ka = k
    · subst hk
      simp [memSet, lookupField, Ne.symm h]
    · simp [memSet, lookupField, hk, ih]

/-! ## Claim theorems -/

/-- C1: a structured payload with a `score` outside [0,5] or a CEFR field
outside the enum fails validation with an error report naming every
offending field (score and CEFR errors are both reported when both are
present); a successful validation never coerces or clamps — the typed
score is exactly the input integer and lies in [0,5] — and no partial
evaluation is produced (subscore-level failures propagate to a
`SpeakingEvaluation`-level error). -/
theorem validate_rejects_out_of_range :
    (∀ (p : List String) (j : Json) (s : Subscore), validateSubscore p j = .ok s →
        0 ≤ s.score ∧ s.score ≤ 5 ∧ j.getField "score" = some (.num s.score)) ∧
    (∀ (j : Json) (e : SpeakingEvaluation),
        validateSpeakingEvaluation [] j = .ok e → e.scoresInRange = true) ∧
    (∀ (p : List String) (j : Json) (n : Int) (s : String),
        j.getField "score" = some (.num n) → ¬(0 ≤ n ∧ n ≤ 5) →
        j.getField "cefr_estimate" = some (.str s) → parseCEFR s = none →
        (p ++ ["score"]) ∈ errOf (validateSubscore p j) ∧
        (p ++ ["cefr_estimate"]) ∈ errOf (validateSubscore p j) ∧
        validateSubscore p j = .error (errOf (validateSubscore p j))) ∧
    (∀ (j jv js : Json) (n : Int),
        j.getField "vocab" = some jv → jv.getField "vocab_range" = some js →
        js.getField "score" = some (.num n) → ¬(0 ≤ n ∧ n ≤ 5) →
        ["vocab", "vocab_range", "score"] ∈ errOf (validateSpeakingEvaluation [] j) ∧
        validateSpeakingEvaluation [] j =
          .error (errOf (validateSpeakingEvaluation [] j))) ∧
    (∀ (j : Json) (s : String),
        j.getField "overall_level" = some (.str s) → parseCEFR s = none →
        ["overall_level"] ∈ errOf (validateSpeakingEvaluation [] j) ∧
        validateSpeakingEvaluation [] j =
          .error (errOf (validateSpeakingEvaluation [] j))) := by
  refine ⟨?_, ?_, ?_, ?_, ?_⟩
  · intro p j s h
    obtain ⟨ag, hge, hle⟩ := validateSubscore_ok h
    exact ⟨hge, hle, ag.1⟩
  · intro j e h
    exact (validateSpeakingEvaluation_ok h).2
  · intro p j n s hs hn hc hp
    exact ⟨mem_err_subscore_score hs hn, mem_err_subscore_cefr hc hp,
      mem_errOf_is_error (mem_err_subscore_score hs hn)⟩
  · intro j jv js n hjv hjs hsc hn
    have hmem := mem_err_SE_vocab (p := []) hjv
      (mem_err_vocab_range hjs (mem_err_subscore_score hsc hn))
    exact ⟨hmem, mem_errOf_is_error hmem⟩
  · intro j s hol hp
    have hmem := mem_err_SE_overall_level (p := []) hol hp
    exact ⟨hmem, mem_errOf_is_error hmem⟩

/-- C1 witness: on a concrete subscore payload with `score` 6 and
`cefr_estimate` "B2.5", both field paths are reported; on a concrete full
payload with a nested score of 6, the evaluation-level validation reports
the nested path. -/
theorem validate_rejects_out_of_range_witness :
    (["x", "score"] ∈ errOf (validateSubscore ["x"] badSubPayload) ∧
     ["x", "cefr_estimate"] ∈ errOf (validateSubscore ["x"] badSubPayload)) ∧
    ["vocab", "vocab_range", "score"] ∈
      errOf (validateSpeakingEvaluation [] outOfRangePayload) := by
  have h := validate_rejects_out_of_range
  have h3 := h.2.2.1 ["x"] badSubPayload 6 "B2.5" rfl (by decide) rfl rfl
  have h4 := h.2.2.2.1 outOfRangePayload badVocabPayload badVocabRangeSub
    6 rfl rfl rfl (by decide)
  exact ⟨⟨h3.1, h3.2.1⟩, h4.1⟩

/-- C2 counterexample: `judge_speaking` applied to the empty transcript
still issues one outbound request to the generation collaborator — the
claimed zero-request `EmptyInputError` path does not exist in the code. -/
theorem empty_input_still_requests :
    ((judge_speaking clientNone parseNone "" st0).2.requests).length = 1 := rfl

/-- C2 amended: `evaluate("")` is not rejected — there is no empty-input
check, so the empty transcript is sent to the collaborator exactly like
any other input, producing exactly one outbound request; any failure comes
from validating the collaborator's response, not from the input check. -/
theorem judge_speaking_empty_input (client : Collaborator)
    (jsonParse : String → Option Json) (st : AgentState) :
    (judge_speaking client jsonParse "" st).2.requests = st.requests ++ [""] := rfl

/-- C3 counterexample: a payload whose required string field
`overall_summary` is the empty string still validates successfully into a
full `SpeakingEvaluation` — emptiness of required strings is not checked. -/
theorem empty_string_accepted :
    validateSpeakingEvaluation [] (mkEvalPayload "") = .ok (mkEvalVal "") ∧
    (mkEvalVal "").overall_summary = "" := ⟨rfl, rfl⟩

/-- C3 amended: validation requires every required string field to be
present and of string type, but does not require non-emptiness: the value
is taken verbatim (even when empty), and a payload whose `overall_summary`
is any string — including the empty string — validates successfully. -/
theorem validate_string_fields_presence :
    (∀ (j : Json) (e : SpeakingEvaluation), validateSpeakingEvaluation [] j = .ok e →
        j.getField "overall_summary" = some (.str e.overall_summary)) ∧
    (∀ s : String,
        validateSpeakingEvaluation [] (mkEvalPayload s) = .ok (mkEvalVal s)) := by
  constructor
  · intro j e h
    exact (validateSpeakingEvaluation_ok h).1.2.2.2.2.2.2.2.2.2.1
  · intro s
    rfl

/-- C3 amended-claim witness at a concrete payload. -/
theorem validate_string_fields_presence_witness :
    (mkEvalPayload "x").getField "overall_summary" =
      some (.str (mkEvalVal "x").overall_summary) :=
  validate_string_fields_presence.1 _ _ (validate_string_fields_presence.2 "x")

/-- C4: the raw-text fallback is attempted exactly when the structured
path yields nothing: if `resp.parsed` is present the result is its dump
and the fallback never runs; if `resp.parsed` is absent the result is
exactly `SpeakingEvaluation.model_validate_json(resp.text)` (dumped),
attempted before any failure surfaces. -/
theorem judge_speaking_fallback_policy (client : Collaborator)
    (jsonParse : String → Option Json) (input : String) (st : AgentState) :
    (∀ e, (client.respond input).parsed = some e →
      (judge_speaking client jsonParse input st).1 = .ok (dumpSpeakingEvaluation e)) ∧
    ((client.respond input).parsed = none →
      (judge_speaking client jsonParse input st).1 =
        (model_validate_json jsonParse (client.respond input).text).map
          dumpSpeakingEvaluation) := by
  constructor
  · intro e he
    simp only [judge_speaking, generate_content]
    rw [he]
    rfl
  · intro hn
    simp only [judge_speaking, generate_content]
    rw [hn]

/-- C4 witness: with a collaborator returning a structured payload the
result is its dump; with a collaborator returning no structured payload
the result is exactly the fallback parse of the raw text. -/
theorem judge_speaking_fallback_policy_witness :
    (judge_speaking clientParsed parseNone "t" st0).1 =
      .ok (dumpSpeakingEvaluation (mkEvalVal "solid B1")) ∧
    (judge_speaking clientNone parseSample "t" st0).1 =
      (model_validate_json parseSample (clientNone.respond "t").text).map
        dumpSpeakingEvaluation :=
  ⟨(judge_speaking_fallback_policy clientParsed parseNone "t" st0).1 _ rfl,
   (judge_speaking_fallback_policy clientNone parseSample "t" st0).2 rfl⟩

/-- C5: round-trip fidelity — whenever validation succeeds, every field of
the returned `SpeakingEvaluation` (down through judges, subscores and
evidence items) carries exactly the corresponding input payload value. -/
theorem validate_roundtrip (j : Json) (e : SpeakingEvaluation)
    (h : validateSpeakingEvaluation [] j = .ok e) : evalAgrees j e :=
  (validateSpeakingEvaluation_ok h).1

/-- C5 witness: round-trip fidelity at a concrete valid payload. -/
theorem validate_roundtrip_witness :
    evalAgrees (mkEvalPayload "Good overall.") (mkEvalVal "Good overall.") :=
  validate_roundtrip _ _ rfl

/-- C6: write-then-read consistency and last-write-wins with no history:
after `put(e)` a `get()` returns `e`; storing `e1` then `e2` leaves the
memory exactly as if only `e2` had been stored, and `get()` returns `e2`. -/
theorem store_last_write_wins (mem : Mem) (e1 e2 : Json) :
    (get_scores (log_scores mem e1).1).2 = e1 ∧
    (log_scores (log_scores mem e1).1 e2).1 = (log_scores mem e2).1 ∧
    (get_scores (log_scores (log_scores mem e1).1 e2).1).2 = e2 := by
  refine ⟨?_, ?_, ?_⟩
  · simp only [get_scores, log_scores]
    rw [lookup_memSet_same]
    rfl
  · exact memSet_memSet mem "scores" e1 e2
  · simp only [get_scores, log_scores]
    rw [memSet_memSet, lookup_memSet_same]
    rfl

/-- C7: `get()` on a store that never received a `put` returns the
explicit empty marker (the empty dict), which is never an error (the
operation is total) and is distinguishable from every dumped
`SpeakingEvaluation`. -/
theorem get_scores_empty :
    (∀ mem : Mem, lookupField mem "scores" = none →
        (get_scores mem).2 = Json.obj []) ∧
    (get_scores st0.memory).2 = Json.obj [] ∧
    (∀ e : SpeakingEvaluation, dumpSpeakingEvaluation e ≠ Json.obj []) := by
  refine ⟨?_, rfl, ?_⟩
  · intro mem h
    simp [get_scores, h]
  · intro e h
    simp [dumpSpeakingEvaluation] at h

/-- C7 witness: a concrete store without a "scores" entry yields the
empty marker. -/
theorem get_scores_empty_witness :
    (get_scores [("other", Json.null)]).2 = Json.obj [] :=
  get_scores_empty.1 [("other", Json.null)] rfl

/-- C8: frame property of `evaluate`: one call issues exactly one outbound
request (its transcript appended to the request log) and leaves the
session memory untouched — in particular a failing call stores nothing. -/
theorem judge_speaking_frame (client : Collaborator)
    (jsonParse : String → Option Json) (input : String) (st : AgentState) :
    (judge_speaking client jsonParse input st).2.memory = st.memory ∧
    (judge_speaking client jsonParse input st).2.requests = st.requests ++ [input] :=
  ⟨rfl, rfl⟩

/-- C9: the dict produced by a successful `evaluate` serializes the
grammar range subscore under the field name `"range_"` (dumping does not
use the alias), while validation accepts that subscore only under the
alias key `"range"`; consequently re-validating any dump fails, reporting
the missing `grammar.range` field. -/
theorem dump_not_revalidatable (e : SpeakingEvaluation) :
    (dumpGrammar e.grammar).getField "range_" = some (dumpSubscore e.grammar.range_) ∧
    (dumpGrammar e.grammar).getField "range" = none ∧
    ["grammar", "range"] ∈
      errOf (validateSpeakingEvaluation [] (dumpSpeakingEvaluation e)) ∧
    validateSpeakingEvaluation [] (dumpSpeakingEvaluation e) =
      .error (errOf (validateSpeakingEvaluation [] (dumpSpeakingEvaluation e))) := by
  have hg : (dumpSpeakingEvaluation e).getField "grammar" =
      some (dumpGrammar e.grammar) := rfl
  have hnone : (dumpGrammar e.grammar).getField "range" = none := rfl
  have hobj : (dumpGrammar e.grammar).isObj = true := rfl
  have hmem := mem_err_SE_grammar (p := []) hg
    (mem_err_grammar_missing_range hobj hnone)
  exact ⟨rfl, hnone, hmem, mem_errOf_is_error hmem⟩

/-- C10: both store operations touch only the "scores" slot: `log_scores`
returns the confirmation string and preserves every other key;
`get_scores` performs no writes, so consecutive reads agree. -/
theorem store_frame (mem : Mem) (e : Json) :
    (log_scores mem e).2 = "Scores logged successfully." ∧
    (∀ k : String, k ≠ "scores" →
        lookupField (log_scores mem e).1 k = lookupField mem k) ∧
    (get_scores mem).1 = mem ∧
    (get_scores (get_scores mem).1).2 = (get_scores mem).2 :=
  ⟨rfl, fun _ hk => lookup_memSet_other mem e hk, rfl, rfl⟩

/-- C10 witness: logging under "scores" leaves a concrete other key
unchanged. -/
theorem store_frame_witness :
    lookupField (log_scores [("other", Json.null)] (Json.obj [])).1 "other" =
      some Json.null := by
  have h := store_frame [("other", Json.null)] (Json.obj [])
  rw [h.2.1 "other" (by decide)]
  rfl
